import Mathlib

/-!
Verification of the configuration module of the AWS Deployment Framework
(`adf-build/config.py`).  The Python module loads `adfconfig.yml`, derives the
in-memory `Config` model, validates it, and persists it to a parameter store.

The code is shallowly embedded: YAML/Python values become the inductive `Val`,
Python runtime failures become the `PyErr` error type, and every function below
mirrors the corresponding Python method statement by statement.
-/

set_option autoImplicit false

namespace ADF

/-- A Python/YAML value as it occurs in this module: `None`, strings, booleans,
opaque runtime objects (e.g. a `ParameterStore` client, rendered only by
`str`), lists, and string-keyed dictionaries (association lists preserving
insertion order, as Python dicts do). -/
inductive Val where
  | vnull : Val
  | vstr : String → Val
  | vbool : Bool → Val
  | vobj : String → Val
  | vlist : List Val → Val
  | vmap : List (String × Val) → Val

/-- The ways construction can fail at runtime: the typed
`InvalidConfigError` raised by `_validate`, and the untyped Python exceptions
the module can hit (`KeyError` from `os.environ`, `TypeError` from
subscripting `None`, `AttributeError` from `.get` on a non-dict,
`IndexError` from `[0]` on an empty list, `ValueError` from unpacking). -/
inductive PyErr where
  | invalidConfig : String → PyErr
  | keyError : PyErr
  | typeError : PyErr
  | attributeError : PyErr
  | indexError : PyErr
  | valueError : PyErr
deriving DecidableEq

/-- First-match lookup in an insertion-ordered dictionary. -/
def lookupV : List (String × Val) → String → Option Val
  | [], _ => none
  | (k, v) :: r, q => if k == q then some v else lookupV r q

/-- Python `d.get(k, default)`: the stored value when the key is present
(even when that value is `None`), the default otherwise. -/
def mapGetD (m : List (String × Val)) (k : String) (d : Val) : Val :=
  match lookupV m k with
  | some v => v
  | none => d

/-- Python `d.get(k)`: `None` when the key is absent. -/
def mapGet (m : List (String × Val)) (k : String) : Val :=
  mapGetD m k .vnull

/-- Python `v.get(k, default)` on an arbitrary value: only dictionaries have
the `get` attribute; anything else raises `AttributeError`. -/
def Val.attrGetD : Val → String → Val → Except PyErr Val
  | .vmap m, k, d => .ok (mapGetD m k d)
  | _, _, _ => .error .attributeError

/-- Python `v.get(k)` on an arbitrary value. -/
def Val.attrGet (v : Val) (k : String) : Except PyErr Val :=
  v.attrGetD k .vnull

/-- Python `v[0]`: head of a non-empty list, `IndexError` on an empty list,
the first character of a non-empty string, `KeyError` when a dict is indexed
by an integer absent from its (string) keys, `TypeError` otherwise. -/
def Val.index0 : Val → Except PyErr Val
  | .vlist [] => .error .indexError
  | .vlist (x :: _) => .ok x
  | .vstr s => if s.isEmpty then .error .indexError else .ok (.vstr (s.take 1))
  | .vmap _ => .error .keyError
  | _ => .error .typeError

/-- Python `v is None` / `v == None` for our values. -/
def Val.isNull : Val → Bool
  | .vnull => true
  | _ => false

/-- Python `isinstance(v, list)`. -/
def Val.isList : Val → Bool
  | .vlist _ => true
  | _ => false

/-- Python truthiness of a value. -/
def Val.truthy : Val → Bool
  | .vnull => false
  | .vstr s => !s.isEmpty
  | .vbool b => b
  | .vobj _ => true
  | .vlist xs => !xs.isEmpty
  | .vmap m => !m.isEmpty

/-- Python `v == s` for a string literal `s`: string comparison when `v` is a
string, `False` for any other value. -/
def Val.eqStr : Val → String → Bool
  | .vstr t, s => t == s
  | _, _ => false

/-- Exception-propagating sequencing, mirroring Python statement order:
an exception raised by the first step aborts the rest. -/
def ebind {α β : Type} (x : Except PyErr α) (f : α → Except PyErr β) :
    Except PyErr β :=
  match x with
  | .error e => .error e
  | .ok a => f a

/-- The in-memory `Config` object.  Fields are listed in the order
`__init__` assigns them, which is the iteration order of `self.__dict__` used
by `_store_config`.  `protected` is a Lean keyword, so that attribute is
called `protectedSeq` here; the string `"protected"` is still used as its
dictionary key. -/
structure ConfigModel where
  parameters_client : Val
  config_path : Val
  organization_id : Val
  client_deployment_region : Val
  notification_type : Val
  notification_endpoint : Val
  config_contents : Val
  config : Val
  deployment_account_region : Val
  notification_channel : Val
  protectedSeq : Val
  target_regions : Val
  cross_account_access_role : Val
  extensions : Val

/-- `AVAILABLE_EXTENSIONS` from the source. -/
def AVAILABLE_EXTENSIONS : List String := ["terraform"]

/-- Python dict assignment `d[k] = v`: replace in place when the key exists,
append otherwise. -/
def dictAssign : List (String × Val) → String → Val → List (String × Val)
  | [], k, v => [(k, v)]
  | (k1, v1) :: r, k, v =>
    if k1 == k then (k1, v) :: r else (k1, v1) :: dictAssign r k v

/-- `_configure_default_extensions_behavior` on the underlying dictionary:
for every available extension not already a key, insert `{enabled: False}`. -/
def configureDefaultExtensionsMap (m : List (String × Val)) :
    List (String × Val) :=
  (AVAILABLE_EXTENSIONS.filter (fun e => (lookupV m e).isNone)).foldl
    (fun acc e => dictAssign acc e (.vmap [("enabled", .vbool false)])) m

/-- `_configure_default_extensions_behavior`: `self.extensions.keys()` raises
`AttributeError` when `extensions` is not a dictionary. -/
def configureDefaultExtensions : Val → Except PyErr Val
  | .vmap m => .ok (.vmap (configureDefaultExtensionsMap m))
  | _ => .error .attributeError

/-- Message of the missing-required-properties `InvalidConfigError`. -/
def missingMsg : String :=
  "adfconfig.yml is missing required properties. Please see the documentation."

/-- Message of the scp `InvalidConfigError`. -/
def scpMsg : String :=
  "Configuration settings for organizations should be either enabled or disabled"

/-- Message of the multi-region deployment-account `InvalidConfigError`. -/
def darMsg : String :=
  "ADF currently only supports a single Deployment Account region"

/-- `Config._validate`, statement by statement.  The membership tuple is
built left to right (so `config.get(...)` runs, and can raise, before the
`None in` test); only `AssertionError` is converted to the scp
`InvalidConfigError`; unpacking `[x] = xs` raises `ValueError` on an empty
list; on success `deployment_account_region` and `target_regions` are
normalized in place. -/
def validate (m : ConfigModel) : Except PyErr ConfigModel :=
  ebind (m.config.attrGet "moves") fun moves =>
  ebind (m.config.attrGet "main-notification-endpoint") fun mne =>
  if m.cross_account_access_role.isNull || m.config.isNull ||
      m.deployment_account_region.isNull || m.organization_id.isNull ||
      m.target_regions.isNull || moves.isNull || mne.isNull then
    .error (.invalidConfig missingMsg)
  else
    ebind (m.config.attrGet "scp") fun scp =>
    ebind
      (if scp.truthy then
        ebind (scp.attrGet "keep-default-scp") fun kd =>
        if kd.eqStr "enabled" || kd.eqStr "disabled" then .ok Val.vnull
        else .error (.invalidConfig scpMsg)
      else .ok Val.vnull) fun _ =>
    ebind
      (match m.deployment_account_region with
      | .vlist xs =>
        if 1 < xs.length then .error (.invalidConfig darMsg)
        else
          match xs with
          | [x] => .ok x
          | _ => .error .valueError
      | v => .ok v) fun dar =>
    .ok { m with
      deployment_account_region := dar,
      target_regions :=
        if m.target_regions.isList then m.target_regions
        else .vlist [m.target_regions] }

/-- `Config._parse_config` (including the attribute initialisation done by
`__init__`), statement by statement.  `config_contents.get("regions", {})` is
read twice in the source with the same result; it is bound once here.  The
notification endpoint really is fetched and indexed twice, so it is here
too. -/
def parseConfig (org : Val) (doc : List (String × Val)) :
    Except PyErr ConfigModel :=
  let regions0 := mapGetD doc "regions" (.vmap [])
  ebind (regions0.attrGetD "targets" (.vlist [])) fun regions =>
  ebind (regions0.attrGet "deployment-account") fun dar =>
  ebind regions.index0 fun r0 =>
  let target_regions := if r0.isNull then Val.vlist [] else regions
  let roles0 := mapGetD doc "roles" (.vmap [])
  ebind (roles0.attrGet "cross-account-access") fun cross =>
  let config := mapGet doc "config"
  ebind (config.attrGetD "protected" (.vlist [])) fun prot =>
  ebind (config.attrGet "main-notification-endpoint") fun mne1 =>
  ebind mne1.index0 fun first1 =>
  ebind (first1.attrGet "type") fun tyv =>
  let ntype : String := if tyv.eqStr "slack" then "lambda" else "email"
  ebind (config.attrGet "main-notification-endpoint") fun mne2 =>
  ebind mne2.index0 fun first2 =>
  ebind (first2.attrGet "target") fun endp =>
  let chan := if ntype == "email" then Val.vnull else endp
  let ext0 := mapGetD doc "extensions" (.vmap [])
  ebind (configureDefaultExtensions ext0) fun ext =>
  validate {
    parameters_client := .vobj "ParameterStore",
    config_path := .vstr "./adfconfig.yml",
    organization_id := org,
    client_deployment_region := .vnull,
    notification_type := .vstr ntype,
    notification_endpoint := endp,
    config_contents := .vmap doc,
    config := config,
    deployment_account_region := dar,
    notification_channel := chan,
    protectedSeq := prot,
    target_regions := target_regions,
    cross_account_access_role := cross,
    extensions := ext }

/-- Construction of a `Config` from the parsed document: `__init__` first
reads `ORGANIZATION_ID` from the environment (`KeyError` when absent), then
loads the file and runs `_parse_config`, which ends in `_validate`. -/
def construct (orgEnv : Option String) (doc : List (String × Val)) :
    Except PyErr ConfigModel :=
  match orgEnv with
  | none => .error .keyError
  | some org => parseConfig (.vstr org) doc

/-! Concrete documents used to instantiate the claims.  `mkDoc` assembles an
`adfconfig.yml` document from its four top-level sections; the `base*`
values are an otherwise-valid instantiation following the schema. -/

/-- The `ORGANIZATION_ID` environment value used for concrete documents. -/
def orgId : String := "o-1234567890"

/-- Default `regions.targets` slot. -/
def baseTargets : Val := .vlist [.vstr "eu-west-1"]

/-- Default `regions.deployment-account` slot. -/
def baseDar : Val := .vstr "us-east-1"

/-- Default `config.moves` slot. -/
def movesVal : Val := .vstr "remove-base"

/-- Default `config.main-notification-endpoint` slot (an email endpoint). -/
def mneEmail : Val :=
  .vlist [.vmap [("type", .vstr "email"), ("target", .vstr "ops@example.com")]]

/-- Assemble a document from the four top-level sections. -/
def mkDoc (targets dar : Val) (cfgEntries : List (String × Val))
    (ext : List (String × Val)) : List (String × Val) :=
  [("regions", .vmap [("targets", targets), ("deployment-account", dar)]),
   ("roles", .vmap [("cross-account-access", .vstr "adf-admin-role")]),
   ("config", .vmap cfgEntries),
   ("extensions", .vmap ext)]

/-- Default `config` section entries. -/
def baseCfgEntries : List (String × Val) :=
  [("moves", movesVal), ("main-notification-endpoint", mneEmail)]

/-- The model construction is expected to produce for a given document and
derived field values (with the default organisation id and the constant
fields set by `__init__`). -/
def expModel (doc : List (String × Val)) (ntype : String)
    (endp chan dar targets prot cross cfg ext : Val) : ConfigModel := {
  parameters_client := .vobj "ParameterStore",
  config_path := .vstr "./adfconfig.yml",
  organization_id := .vstr orgId,
  client_deployment_region := .vnull,
  notification_type := .vstr ntype,
  notification_endpoint := endp,
  config_contents := .vmap doc,
  config := cfg,
  deployment_account_region := dar,
  notification_channel := chan,
  protectedSeq := prot,
  target_regions := targets,
  cross_account_access_role := cross,
  extensions := ext }

/-- The extensions dictionary after defaulting an empty document section. -/
def defaultExt : List (String × Val) :=
  [("terraform", .vmap [("enabled", .vbool false)])]

/-! The persister: `store_config` = `_store_config` (primary region pass)
followed by `_store_cross_region_config` (deployment-region pass). -/

mutual

/-- Python `repr` of a value, as used by `str` inside containers.  String
quoting is modelled without Python escape processing, which is exact for the
quote-free strings appearing in configuration documents. -/
def Val.pyRepr : Val → String
  | .vnull => "None"
  | .vstr s => "\x27" ++ s ++ "\x27"
  | .vbool b => if b then "True" else "False"
  | .vobj t => t
  | .vlist xs => "[" ++ pyReprList xs ++ "]"
  | .vmap m => "\x7b" ++ pyReprMap m ++ "\x7d"

/-- Comma-separated reprs of list elements. -/
def pyReprList : List Val → String
  | [] => ""
  | [x] => Val.pyRepr x
  | x :: y :: r => Val.pyRepr x ++ ", " ++ pyReprList (y :: r)

/-- Comma-separated `key: value` reprs of dictionary entries. -/
def pyReprMap : List (String × Val) → String
  | [] => ""
  | [(k, v)] => "\x27" ++ k ++ "\x27: " ++ Val.pyRepr v
  | (k, v) :: e :: r =>
    "\x27" ++ k ++ "\x27: " ++ Val.pyRepr v ++ ", " ++ pyReprMap (e :: r)

end

/-- Python `str` of a value: the string itself for strings, `repr`-style
rendering otherwise. -/
def Val.pyStr : Val → String
  | .vstr s => s
  | v => v.pyRepr

/-- Which parameter-store client a write goes through: the primary-region
client held in `parameters_client`, or the client constructed by
`_store_cross_region_config` bound to a given region value. -/
inductive PClient where
  | primary : PClient
  | region : Val → PClient

/-- Whether a client is the primary-region client. -/
def PClient.isPrimaryClient : PClient → Bool
  | .primary => true
  | .region _ => false

/-- One `put_parameter(key, value)` call, with the client it goes through. -/
structure Put where
  client : PClient
  key : String
  value : Val

/-- `self.__dict__.items()` of a `Config` object: attribute names paired with
values, in `__init__` assignment order (Python dicts preserve insertion
order, and later reassignment keeps the original position). -/
def instanceDict (m : ConfigModel) : List (String × Val) :=
  [("parameters_client", m.parameters_client),
   ("config_path", m.config_path),
   ("organization_id", m.organization_id),
   ("client_deployment_region", m.client_deployment_region),
   ("notification_type", m.notification_type),
   ("notification_endpoint", m.notification_endpoint),
   ("config_contents", m.config_contents),
   ("config", m.config),
   ("deployment_account_region", m.deployment_account_region),
   ("notification_channel", m.notification_channel),
   ("protected", m.protectedSeq),
   ("target_regions", m.target_regions),
   ("cross_account_access_role", m.cross_account_access_role),
   ("extensions", m.extensions)]

/-- The attribute names `_store_config` skips. -/
def storeExclusions : List String :=
  ["client", "client_deployment_region", "parameters_client",
   "config_contents", "config_path", "notification_endpoint",
   "notification_type", "extensions"]

/-- The f-string key `/adf/extensions/{extension}/{attribute}`. -/
def mkExtKey (e a : String) : String :=
  "/adf/extensions/" ++ e ++ "/" ++ a

/-- The writes of the per-extension loop for one extension entry.  Iterating
and subscripting a non-dictionary attribute collection raises before any
successful write, so no writes are modelled for that case. -/
def attrWrites (e : String) : Val → List Put
  | .vmap am => am.map fun p => Put.mk .primary (mkExtKey e p.1) (.vstr p.2.pyStr)
  | _ => []

/-- The writes of the extensions loop of `_store_config`.  `.items()` on a
non-dictionary raises `AttributeError` before any write. -/
def extensionWrites : Val → List Put
  | .vmap ext => ext.flatMap fun p => attrWrites p.1 p.2
  | _ => []

/-- All writes of `_store_config`: every `__dict__` entry whose name is not
excluded, stringified, in iteration order, followed by the flattened
extension writes. -/
def storePrimaryWrites (m : ConfigModel) : List Put :=
  ((instanceDict m).filter fun kv => !(storeExclusions.contains kv.1)).map
    (fun kv => Put.mk .primary kv.1 (.vstr kv.2.pyStr))
  ++ extensionWrites m.extensions

/-- `store_config`: the primary pass, then `_store_cross_region_config`,
which constructs a client bound to `deployment_account_region` (assigned to
`self.client_deployment_region`) and writes `adf_version` (the `ADF_VERSION`
environment value) and the raw `cross_account_access_role` through it.
Returns the writes in order together with the mutated object. -/
def storeConfigRun (adfVersion : String) (m : ConfigModel) :
    List Put × ConfigModel :=
  let client := PClient.region m.deployment_account_region
  (storePrimaryWrites m
    ++ [Put.mk client "adf_version" (.vstr adfVersion),
        Put.mk client "cross_account_access_role" m.cross_account_access_role],
   { m with client_deployment_region := .vobj "ParameterStore" })


/-! Concrete claim documents and expected models. -/

/-- An otherwise-valid document missing `config.main-notification-endpoint`. -/
def docMissingMne : List (String × Val) :=
  mkDoc baseTargets baseDar [("moves", movesVal)] []

/-- An otherwise-valid document missing the `config` section. -/
def docMissingConfig : List (String × Val) :=
  [("regions", .vmap [("targets", baseTargets), ("deployment-account", baseDar)]),
   ("roles", .vmap [("cross-account-access", .vstr "adf-admin-role")])]

/-- An otherwise-valid document missing `roles.cross-account-access`. -/
def docMissingRole : List (String × Val) :=
  [("regions", .vmap [("targets", baseTargets), ("deployment-account", baseDar)]),
   ("config", .vmap baseCfgEntries)]

/-- The `config` section entries with an `scp` sub-document. -/
def scpCfg (scp : Val) : List (String × Val) :=
  [("moves", movesVal), ("scp", scp), ("main-notification-endpoint", mneEmail)]

/-- An otherwise-valid document with a given `config.scp` value. -/
def docWithScp (scp : Val) : List (String × Val) :=
  mkDoc baseTargets baseDar (scpCfg scp) []

/-- The model expected from a successful construction over `docWithScp`. -/
def scpModel (scp : Val) : ConfigModel :=
  expModel (docWithScp scp) "email" (.vstr "ops@example.com") .vnull baseDar
    baseTargets (.vlist []) (.vstr "adf-admin-role") (.vmap (scpCfg scp))
    (.vmap defaultExt)

/-- The amended acceptance condition on the `keep-default-scp` slot: present
with string value `"enabled"` or `"disabled"`. -/
def kdOk : Option Val → Bool
  | some (.vstr s) => s == "enabled" || s == "disabled"
  | _ => false

/-- An `scp` sub-document carrying the given optional `keep-default-scp`
value; with `none` the sub-document is non-empty (truthy) but lacks the
`keep-default-scp` key. -/
def kdEntries : Option Val → List (String × Val)
  | some v => [("keep-default-scp", v)]
  | none => [("aws-org-unit", .vstr "retain")]

/-- The model expected from the base otherwise-valid document. -/
def baseModel : ConfigModel :=
  expModel (mkDoc baseTargets baseDar baseCfgEntries []) "email"
    (.vstr "ops@example.com") .vnull baseDar baseTargets (.vlist [])
    (.vstr "adf-admin-role") (.vmap baseCfgEntries) (.vmap defaultExt)

/-- An otherwise-valid document with a given `regions.deployment-account`
value. -/
def docWithDarSlot (dar : Val) : List (String × Val) :=
  mkDoc baseTargets dar baseCfgEntries []

/-- The model expected from `docWithDarSlot darDoc`, whose
`deployment_account_region` field validation resolved to `darField`. -/
def darModel (darDoc darField : Val) : ConfigModel :=
  expModel (docWithDarSlot darDoc) "email" (.vstr "ops@example.com") .vnull
    darField baseTargets (.vlist []) (.vstr "adf-admin-role")
    (.vmap baseCfgEntries) (.vmap defaultExt)

/-- An otherwise-valid document with a given `regions.targets` value. -/
def docWithTargetsSlot (t : Val) : List (String × Val) :=
  mkDoc t baseDar baseCfgEntries []

/-- The model expected from `docWithTargetsSlot tDoc`, whose
`target_regions` field resolved to `tField`. -/
def targetsModel (tDoc tField : Val) : ConfigModel :=
  expModel (docWithTargetsSlot tDoc) "email" (.vstr "ops@example.com") .vnull
    baseDar tField (.vlist []) (.vstr "adf-admin-role")
    (.vmap baseCfgEntries) (.vmap defaultExt)

/-- The `config` section entries with a given
`main-notification-endpoint`. -/
def mneCfg (mne : Val) : List (String × Val) :=
  [("moves", movesVal), ("main-notification-endpoint", mne)]

/-- An otherwise-valid document with a given
`config.main-notification-endpoint` value. -/
def docWithMneSlot (mne : Val) : List (String × Val) :=
  mkDoc baseTargets baseDar (mneCfg mne) []

/-- The model expected from `docWithMneSlot mne` with the given derived
notification fields. -/
def mneModel (mne : Val) (ntype : String) (endp chan : Val) : ConfigModel :=
  expModel (docWithMneSlot mne) ntype endp chan baseDar baseTargets
    (.vlist []) (.vstr "adf-admin-role") (.vmap (mneCfg mne))
    (.vmap defaultExt)

/-- An otherwise-valid document with a given `extensions` section. -/
def docWithExt (ext : List (String × Val)) : List (String × Val) :=
  mkDoc baseTargets baseDar baseCfgEntries ext

/-- The model expected from `docWithExt ext`: its extensions are the
document's extensions after defaulting. -/
def extModel (ext : List (String × Val)) : ConfigModel :=
  expModel (docWithExt ext) "email" (.vstr "ops@example.com") .vnull baseDar
    baseTargets (.vlist []) (.vstr "adf-admin-role") (.vmap baseCfgEntries)
    (.vmap (configureDefaultExtensionsMap ext))

/-- Whether an optional `regions.targets` slot is absent or holds the empty
sequence. -/
def targetsSlotMissing : Option Val → Bool
  | none => true
  | some (.vlist []) => true
  | _ => false

/-- Whether `regions.targets` is absent or the empty sequence, so that the
`.get("regions", {}).get("targets", [])` chain yields an empty list. -/
def targetsMissing (doc : List (String × Val)) : Bool :=
  match lookupV doc "regions" with
  | none => true
  | some (.vmap rm) => targetsSlotMissing (lookupV rm "targets")
  | some _ => false

/-! Helper lemmas. -/

/-- Python `v == s` is false whenever `v` is not the string `s`. -/
theorem eqStr_false_of_ne (v : Val) (s : String) (h : v ≠ .vstr s) :
    v.eqStr s = false := by
  cases v with
  | vstr t =>
    simp only [Val.eqStr, beq_eq_false_iff_ne]
    intro ht
    exact h (by rw [ht])
  | vnull => rfl
  | vbool b => rfl
  | vobj t => rfl
  | vlist l => rfl
  | vmap mm => rfl

/-- After `d[k] = v`, looking up `k` yields `v`. -/
theorem lookupV_dictAssign (m : List (String × Val)) (k : String) (v : Val) :
    lookupV (dictAssign m k v) k = some v := by
  induction m with
  | nil => simp [dictAssign, lookupV]
  | cons p r ih =>
    by_cases h : p.1 == k
    · simp [dictAssign, lookupV, h]
    · simp only [dictAssign]
      rw [show (p.1, p.2) = p from rfl]
      simp [lookupV, h, ih]

/-- Every extension parameter key starts with a slash. -/
theorem mkExtKey_head (e a : String) :
    (mkExtKey e a).data.head? = some (Char.ofNat 47) := by
  simp [mkExtKey, String.data_append]

/-- No extension parameter key equals one of the excluded attribute names
(they all start with a slash, the excluded names do not). -/
theorem mkExtKey_not_excluded (e a : String) :
    mkExtKey e a ∉ storeExclusions := by
  intro h
  have hd := mkExtKey_head e a
  simp only [storeExclusions, List.mem_cons, List.not_mem_nil, or_false] at h
  rcases h with h | h | h | h | h | h | h | h <;> rw [h] at hd <;> simp_all

/-- Every write of the extensions loop goes through the primary client and
uses a key of the `/adf/extensions/{extension}/{attribute}` form. -/
theorem extensionWrites_shape (w : Val) (p : Put)
    (hp : p ∈ extensionWrites w) :
    p.client = .primary ∧ ∃ e a, p.key = mkExtKey e a := by
  cases w with
  | vmap ext =>
    rw [extensionWrites] at hp
    rcases List.mem_flatMap.mp hp with ⟨q, hq, hp2⟩
    rcases hattr : q.2 with _ | _ | _ | _ | _ | am <;> rw [hattr] at hp2 <;>
      simp [attrWrites] at hp2
    rcases hp2 with ⟨ka, va, hmem, rfl⟩
    exact ⟨rfl, q.1, ka, rfl⟩
  | vnull => simp [extensionWrites] at hp
  | vstr s => simp [extensionWrites] at hp
  | vbool b => simp [extensionWrites] at hp
  | vobj t => simp [extensionWrites] at hp
  | vlist l => simp [extensionWrites] at hp

/-- The extensions loop issues no writes through a non-primary client. -/
theorem filter_nonprimary_ext (w : Val) :
    (extensionWrites w).filter (fun p => !p.client.isPrimaryClient) = [] := by
  rw [List.filter_eq_nil_iff]
  intro p hp
  rw [(extensionWrites_shape w p hp).1]
  simp [PClient.isPrimaryClient]

/-! The claims. -/

/-- C1: the claim says every document with `config` or
`config.main-notification-endpoint` null or absent fails with
`InvalidConfigError`.  The code instead crashes before reaching the
validator: with `main-notification-endpoint` absent it raises `TypeError`
(subscripting `None`), and with `config` absent it raises `AttributeError`
(`None.get` while defaulting `protected`).  A document missing only
`roles.cross-account-access` does reach the validator and raises the
intended `InvalidConfigError`. -/
theorem C1_unguarded_crashes :
    construct (some orgId) docMissingMne = .error .typeError ∧
    construct (some orgId) docMissingConfig = .error .attributeError ∧
    construct (some orgId) docMissingRole = .error (.invalidConfig missingMsg) :=
  ⟨rfl, rfl, rfl⟩

/-- C2 counterexample: an otherwise-valid document whose `scp` sub-document
is non-empty but has no `keep-default-scp` key at all still fails with the
scp `InvalidConfigError`, refuting the claim that validation fails exactly
when `keep-default-scp` is present with a bad value. -/
theorem C2_counterexample :
    lookupV [("aws-org-unit", Val.vstr "retain")] "keep-default-scp" = none ∧
    construct (some orgId)
      (docWithScp (.vmap [("aws-org-unit", .vstr "retain")])) =
      .error (.invalidConfig scpMsg) :=
  ⟨rfl, rfl⟩

/-- C2 (amended): for an otherwise-valid document whose `scp` sub-document
carries an optional `keep-default-scp` entry, construction succeeds exactly
when that entry is present with value `"enabled"` or `"disabled"`, and fails
with the scp `InvalidConfigError` otherwise (in particular when the entry is
absent from a truthy `scp`); an absent or empty `scp` sub-document always
succeeds. -/
theorem C2_amended_scp_rule (o : Option Val) :
    construct (some orgId) (docWithScp (.vmap (kdEntries o))) =
      (if kdOk o then .ok (scpModel (.vmap (kdEntries o)))
       else .error (.invalidConfig scpMsg)) ∧
    construct (some orgId) (mkDoc baseTargets baseDar baseCfgEntries []) =
      .ok baseModel ∧
    construct (some orgId) (docWithScp (.vmap [])) = .ok (scpModel (.vmap [])) := by
  refine ⟨?_, rfl, rfl⟩
  cases o with
  | none => rfl
  | some v =>
    cases v with
    | vnull => rfl
    | vbool b => rfl
    | vobj t => rfl
    | vlist xs => rfl
    | vmap mm => rfl
    | vstr s =>
      by_cases h1 : s = "enabled"
      · subst h1; rfl
      · by_cases h2 : s = "disabled"
        · subst h2; rfl
        · have b1 : (s == "enabled") = false := beq_eq_false_iff_ne.mpr h1
          have b2 : (s == "disabled") = false := beq_eq_false_iff_ne.mpr h2
          simp [construct, parseConfig, validate, ebind, mapGet, mapGetD,
            lookupV, Val.attrGet, Val.attrGetD, Val.index0, Val.isNull,
            Val.isList, Val.truthy, Val.eqStr, configureDefaultExtensions,
            configureDefaultExtensionsMap, dictAssign, kdOk, kdEntries,
            docWithScp, scpCfg, mkDoc, baseTargets, baseDar, movesVal, mneEmail,
            b1, b2]

/-- C3: a `regions.deployment-account` sequence with more than one element
makes construction fail with `InvalidConfigError`, while a one-element
sequence is normalized to its scalar element by successful validation. -/
theorem C3_deployment_account_region (xs : List Val) (h : 1 < xs.length)
    (x : Val) :
    construct (some orgId) (docWithDarSlot (.vlist xs)) =
      .error (.invalidConfig darMsg) ∧
    construct (some orgId) (docWithDarSlot (.vlist [x])) =
      .ok (darModel (.vlist [x]) x) := by
  constructor
  · simp [construct, parseConfig, validate, ebind, mapGet, mapGetD, lookupV,
      Val.attrGet, Val.attrGetD, Val.index0, Val.isNull, Val.isList,
      Val.truthy, Val.eqStr, configureDefaultExtensions,
      configureDefaultExtensionsMap, docWithDarSlot, mkDoc, baseTargets,
      baseDar, movesVal, mneEmail, baseCfgEntries, h]
  · rfl

/-- C3 witness: `["us-east-1", "us-west-2"]` is rejected and
`["us-east-1"]` resolves to the scalar `"us-east-1"`. -/
theorem C3_witness :
    construct (some orgId)
      (docWithDarSlot (.vlist [.vstr "us-east-1", .vstr "us-west-2"])) =
      .error (.invalidConfig darMsg) ∧
    construct (some orgId) (docWithDarSlot (.vlist [.vstr "us-east-1"])) =
      .ok (darModel (.vlist [.vstr "us-east-1"]) (.vstr "us-east-1")) :=
  C3_deployment_account_region [.vstr "us-east-1", .vstr "us-west-2"]
    (by decide) (.vstr "us-east-1")

/-- C4: a `regions.targets` sequence whose first element is the null
sentinel yields an empty `target_regions`; a sequence with a non-null first
element is kept exactly as given (later elements, null or not, are never
inspected); a non-empty scalar string is normalized to a one-element
sequence by validation. -/
theorem C4_target_regions (x : Val) (hx : x.isNull = false) (xs : List Val)
    (s : String) (hs : s.isEmpty = false) :
    construct (some orgId) (docWithTargetsSlot (.vlist (.vnull :: xs))) =
      .ok (targetsModel (.vlist (.vnull :: xs)) (.vlist [])) ∧
    construct (some orgId) (docWithTargetsSlot (.vlist (x :: xs))) =
      .ok (targetsModel (.vlist (x :: xs)) (.vlist (x :: xs))) ∧
    construct (some orgId) (docWithTargetsSlot (.vstr s)) =
      .ok (targetsModel (.vstr s) (.vlist [.vstr s])) := by
  refine ⟨rfl, ?_, ?_⟩
  · cases x with
    | vnull => simp [Val.isNull] at hx
    | vstr t => rfl
    | vbool b => rfl
    | vobj t => rfl
    | vlist l => rfl
    | vmap mm => rfl
  · simp [construct, parseConfig, validate, ebind, mapGet, mapGetD, lookupV,
      Val.attrGet, Val.attrGetD, Val.index0, Val.isNull, Val.isList,
      Val.truthy, Val.eqStr, configureDefaultExtensions,
      configureDefaultExtensionsMap, AVAILABLE_EXTENSIONS, dictAssign,
      defaultExt, docWithTargetsSlot, targetsModel,
      expModel, mkDoc, baseTargets, baseDar, movesVal, mneEmail,
      baseCfgEntries, hs]

/-- C4 witness: `[null, "eu-central-1"]` resolves to `[]`,
`["eu-west-1", "eu-central-1"]` is kept verbatim, and the scalar
`"ap-southeast-2"` becomes `["ap-southeast-2"]`. -/
theorem C4_witness :
    construct (some orgId) (docWithTargetsSlot
      (.vlist (.vnull :: [.vstr "eu-central-1"]))) =
      .ok (targetsModel (.vlist (.vnull :: [.vstr "eu-central-1"]))
        (.vlist [])) ∧
    construct (some orgId) (docWithTargetsSlot
      (.vlist (.vstr "eu-west-1" :: [.vstr "eu-central-1"]))) =
      .ok (targetsModel (.vlist (.vstr "eu-west-1" :: [.vstr "eu-central-1"]))
        (.vlist (.vstr "eu-west-1" :: [.vstr "eu-central-1"]))) ∧
    construct (some orgId) (docWithTargetsSlot (.vstr "ap-southeast-2")) =
      .ok (targetsModel (.vstr "ap-southeast-2")
        (.vlist [.vstr "ap-southeast-2"])) :=
  C4_target_regions (.vstr "eu-west-1") rfl [.vstr "eu-central-1"]
    "ap-southeast-2" rfl

/-- C5: no write of the primary-store pass uses a key from the exclusion
set (`client`, `client_deployment_region`, `parameters_client`,
`config_contents`, `config_path`, `notification_endpoint`,
`notification_type`, `extensions`); writes originating from the extensions
mapping use keys of the `/adf/extensions/{extension}/{attribute}` form. -/
theorem C5_no_excluded_keys (m : ConfigModel) (p : Put)
    (hp : p ∈ storePrimaryWrites m) :
    p.key ∉ storeExclusions ∧
    (p ∈ extensionWrites m.extensions → ∃ e a, p.key = mkExtKey e a) := by
  refine ⟨?_, fun hpe => (extensionWrites_shape _ p hpe).2⟩
  rw [storePrimaryWrites] at hp
  rcases List.mem_append.mp hp with hf | he
  · have hred :
        ((instanceDict m).filter fun kv => !(storeExclusions.contains kv.1)).map
          (fun kv => Put.mk .primary kv.1 (.vstr kv.2.pyStr)) =
        [Put.mk .primary "organization_id" (.vstr m.organization_id.pyStr),
         Put.mk .primary "config" (.vstr m.config.pyStr),
         Put.mk .primary "deployment_account_region"
           (.vstr m.deployment_account_region.pyStr),
         Put.mk .primary "notification_channel"
           (.vstr m.notification_channel.pyStr),
         Put.mk .primary "protected" (.vstr m.protectedSeq.pyStr),
         Put.mk .primary "target_regions" (.vstr m.target_regions.pyStr),
         Put.mk .primary "cross_account_access_role"
           (.vstr m.cross_account_access_role.pyStr)] := rfl
    rw [hred] at hf
    simp only [List.mem_cons, List.not_mem_nil, or_false] at hf
    rcases hf with rfl | rfl | rfl | rfl | rfl | rfl | rfl <;>
      simp [storeExclusions]
  · rcases (extensionWrites_shape _ p he).2 with ⟨e, a, hk⟩
    rw [hk]
    exact mkExtKey_not_excluded e a

/-- C5 witness: the first primary write of the base model is keyed
`organization_id`, which is not in the exclusion set. -/
theorem C5_witness :
    (Put.mk .primary "organization_id"
        (.vstr (baseModel.organization_id.pyStr))).key ∉ storeExclusions :=
  (C5_no_excluded_keys baseModel _ (List.Mem.head _)).1

/-- C6: running `store_config` twice on the same model produces exactly the
same list of key/value writes (the only mutation between the calls,
reassigning `client_deployment_region`, is on the exclusion set and the
replica pass does not depend on it). -/
theorem C6_idempotent (v : String) (m : ConfigModel) :
    (storeConfigRun v m).1 = (storeConfigRun v ((storeConfigRun v m).2)).1 :=
  rfl

/-- C7: notification derivation looks only at the first entry of
`config.main-notification-endpoint`; a `slack` type yields
`notification_type = "lambda"` with the channel equal to the entry's target,
any other type yields `"email"` with a null channel; in both cases
`notification_endpoint` is the first entry's target. -/
theorem C7_notification (ty tg : Val) (rest : List Val) :
    (ty = .vstr "slack" →
      construct (some orgId)
        (docWithMneSlot (.vlist (.vmap [("type", ty), ("target", tg)] :: rest))) =
        .ok (mneModel (.vlist (.vmap [("type", ty), ("target", tg)] :: rest))
          "lambda" tg tg)) ∧
    (ty ≠ .vstr "slack" →
      construct (some orgId)
        (docWithMneSlot (.vlist (.vmap [("type", ty), ("target", tg)] :: rest))) =
        .ok (mneModel (.vlist (.vmap [("type", ty), ("target", tg)] :: rest))
          "email" tg .vnull)) := by
  constructor
  · intro h
    subst h
    rfl
  · intro h
    have hb := eqStr_false_of_ne ty "slack" h
    simp [construct, parseConfig, validate, ebind, mapGet, mapGetD, lookupV,
      Val.attrGet, Val.attrGetD, Val.index0, Val.isNull, Val.isList,
      Val.truthy, configureDefaultExtensions,
      configureDefaultExtensionsMap, AVAILABLE_EXTENSIONS, dictAssign,
      defaultExt, docWithMneSlot, mneCfg, mneModel,
      expModel, mkDoc, baseTargets, baseDar, movesVal, baseCfgEntries, hb]

/-- C7 witness: a single slack endpoint targeting `#chan` derives
`notification_type = "lambda"` and `notification_channel = "#chan"`. -/
theorem C7_witness :
    construct (some orgId) (docWithMneSlot
      (.vlist [.vmap [("type", .vstr "slack"), ("target", .vstr "#chan")]])) =
      .ok (mneModel
        (.vlist [.vmap [("type", .vstr "slack"), ("target", .vstr "#chan")]])
        "lambda" (.vstr "#chan") (.vstr "#chan")) :=
  (C7_notification (.vstr "slack") (.vstr "#chan") []).1 rfl

/-- C8: after parsing, every known extension name (`AVAILABLE_EXTENSIONS` is
exactly `["terraform"]`) is a key of the extensions mapping, with
`{enabled: false}` inserted for a name not already present, and the empty
extensions document yields exactly `{"terraform": {"enabled": false}}`. -/
theorem C8_extension_defaulting (ext : List (String × Val)) (e : String)
    (he : e ∈ AVAILABLE_EXTENSIONS) :
    construct (some orgId) (docWithExt ext) = .ok (extModel ext) ∧
    (lookupV (configureDefaultExtensionsMap ext) e).isSome = true ∧
    (lookupV ext e = none →
      lookupV (configureDefaultExtensionsMap ext) e =
        some (.vmap [("enabled", .vbool false)])) ∧
    configureDefaultExtensionsMap [] = defaultExt := by
  have he1 : e = "terraform" := by
    simpa [AVAILABLE_EXTENSIONS] using he
  subst he1
  refine ⟨rfl, ?_, ?_, rfl⟩
  · cases hl : lookupV ext "terraform" with
    | some v =>
      simp [configureDefaultExtensionsMap, AVAILABLE_EXTENSIONS, hl]
    | none =>
      simp [configureDefaultExtensionsMap, AVAILABLE_EXTENSIONS, hl,
        lookupV_dictAssign]
  · intro hl
    simp [configureDefaultExtensionsMap, AVAILABLE_EXTENSIONS, hl,
      lookupV_dictAssign]

/-- C8 witness: the empty extensions document gains exactly the terraform
default entry. -/
theorem C8_witness :
    construct (some orgId) (docWithExt []) = .ok (extModel []) ∧
    (lookupV (configureDefaultExtensionsMap []) "terraform").isSome = true ∧
    (lookupV [] "terraform" = none →
      lookupV (configureDefaultExtensionsMap []) "terraform" =
        some (.vmap [("enabled", .vbool false)])) ∧
    configureDefaultExtensionsMap [] = defaultExt :=
  C8_extension_defaulting [] "terraform" (by decide)

/-- C9: the cross-region pass is the only one writing through a non-primary
client, and it writes exactly two parameters through the client bound to
`deployment_account_region`: the framework version under `adf_version` and
the raw `cross_account_access_role`. -/
theorem C9_replica_pass (v : String) (m : ConfigModel) :
    ((storeConfigRun v m).1.filter fun p => !p.client.isPrimaryClient) =
      [Put.mk (.region m.deployment_account_region) "adf_version" (.vstr v),
       Put.mk (.region m.deployment_account_region) "cross_account_access_role"
         m.cross_account_access_role] := by
  have h1 : (storeConfigRun v m).1 =
      storePrimaryWrites m ++
      [Put.mk (.region m.deployment_account_region) "adf_version" (.vstr v),
       Put.mk (.region m.deployment_account_region) "cross_account_access_role"
         m.cross_account_access_role] := rfl
  rw [h1, List.filter_append, storePrimaryWrites, List.filter_append,
    filter_nonprimary_ext]
  have h2 : (((instanceDict m).filter fun kv =>
      !(storeExclusions.contains kv.1)).map
        (fun kv => Put.mk .primary kv.1 (.vstr kv.2.pyStr))).filter
        (fun p => !p.client.isPrimaryClient) = [] := rfl
  rw [h2]
  rfl

/-- C10: a document whose `regions.targets` is absent or the empty sequence
makes construction fail with an `IndexError` from the unguarded `[0]`
access, not with the validator's `InvalidConfigError`. -/
theorem C10_empty_targets_crash (org : String) (doc : List (String × Val))
    (h : targetsMissing doc = true) :
    construct (some org) doc = .error .indexError := by
  unfold construct parseConfig
  cases hr : lookupV doc "regions" with
  | none =>
    simp [mapGetD, hr, Val.attrGetD, Val.attrGet, lookupV, Val.index0, ebind]
  | some v =>
    cases v with
    | vmap rm =>
      have h2 : targetsSlotMissing (lookupV rm "targets") = true := by
        simpa [targetsMissing, hr] using h
      cases ht : lookupV rm "targets" with
      | none =>
        simp [mapGetD, hr, ht, Val.attrGetD, Val.attrGet, Val.index0, ebind]
      | some t =>
        rw [ht] at h2
        cases t with
        | vlist xs =>
          cases xs with
          | nil =>
            simp [mapGetD, hr, ht, Val.attrGetD, Val.attrGet, Val.index0,
              ebind]
          | cons a r => simp [targetsSlotMissing] at h2
        | vnull => simp [targetsSlotMissing] at h2
        | vstr s => simp [targetsSlotMissing] at h2
        | vbool b => simp [targetsSlotMissing] at h2
        | vobj t2 => simp [targetsSlotMissing] at h2
        | vmap m2 => simp [targetsSlotMissing] at h2
    | vnull => simp [targetsMissing, hr] at h
    | vstr s => simp [targetsMissing, hr] at h
    | vbool b => simp [targetsMissing, hr] at h
    | vobj t => simp [targetsMissing, hr] at h
    | vlist l => simp [targetsMissing, hr] at h

/-- C10 witness: an otherwise-valid document with `regions.targets: []`
crashes with `IndexError`. -/
theorem C10_witness :
    construct (some orgId)
      [("regions", .vmap [("targets", .vlist []),
         ("deployment-account", baseDar)]),
       ("roles", .vmap [("cross-account-access", .vstr "adf-admin-role")]),
       ("config", .vmap baseCfgEntries)] = .error .indexError :=
  C10_empty_targets_crash orgId _ rfl

end ADF
